import Mathlib

/-!
Shallow embedding of the pomodoro timer core: the validated settings record
(`TimerSettings`), the pure timer state machine (`TimerModel` and its
transition functions), the stateful controller (`TimerViewModel`, mirroring
the GObject view model that binds the pure machine to the injected scheduler
and settings storage), and the settings editor (`SettingsViewModel`).

JavaScript numbers are embedded as `Int`; the zod schema constraints
(`positive().int()`, `nonnegative().int()`) become explicit validity
predicates and `Option`-returning parsers. The scheduler is embedded by
tracking the live handle (`timerId`) and a fresh-handle counter
(`nextHandle`); a scheduler callback invocation is the `tick` operation,
whose `Bool` result is the callback's return value (`true` = keep recurring).
-/

/-- Timer mode, from `TimerModeSchema = z.enum(['WORK', 'REST'])`. -/
inductive TimerMode where
  | WORK
  | REST
deriving DecidableEq, Repr

/-- The next mode, `currentMode === 'WORK' ? 'REST' : 'WORK'`. -/
def TimerMode.next : TimerMode → TimerMode
  | .WORK => .REST
  | .REST => .WORK

/-- Run state, from `TimerStateSchema = z.enum(['RUNNING', 'STOPPED'])`. -/
inductive TimerState where
  | RUNNING
  | STOPPED
deriving DecidableEq, Repr

/-- Settings record, from `TimerSettingsSchema`: work and rest durations in
minutes. The zod brand's validity (`positive().int()`) is the separate
predicate `TimerSettings.Valid`. -/
structure TimerSettings where
  workDuration : Int
  restDuration : Int
deriving DecidableEq, Repr

/-- The zod constraint on both fields of `TimerSettingsSchema`:
`z.number().positive().int()` (integrality is the `Int` type itself). -/
def TimerSettings.Valid (s : TimerSettings) : Prop :=
  0 < s.workDuration ∧ 0 < s.restDuration

instance (s : TimerSettings) : Decidable s.Valid := by
  unfold TimerSettings.Valid
  infer_instance

/-- `TimerSettingsSchema.parse` / `safeParse`: succeeds exactly when both
fields are positive integers, otherwise a validation error (`none`). -/
def TimerSettingsSchema.parse (workDuration restDuration : Int) :
    Option TimerSettings :=
  if 0 < workDuration ∧ 0 < restDuration then
    some { workDuration := workDuration, restDuration := restDuration }
  else
    none

/-- `Partial<{ workDuration: number; restDuration: number }>`. -/
structure SettingsUpdates where
  workDuration : Option Int := none
  restDuration : Option Int := none
deriving DecidableEq, Repr

/-- `updateSettings` from the `TimerSettings` model module: merge the partial
updates over the existing settings and re-validate the whole record;
`null` (here `none`) on validation failure. -/
def TimerSettings.updateSettings (settings : TimerSettings)
    (updates : SettingsUpdates) : Option TimerSettings :=
  TimerSettingsSchema.parse (updates.workDuration.getD settings.workDuration)
    (updates.restDuration.getD settings.restDuration)

/-- The pure timer state, from `TimerModelSchema`:
`{ remainingSeconds: nonneg int, currentMode, state }`. -/
structure TimerModel where
  remainingSeconds : Int
  currentMode : TimerMode
  state : TimerState
deriving DecidableEq, Repr

/-- `calculateDurationSeconds(settings, mode)`: the mode's duration in
minutes times 60. -/
def calculateDurationSeconds (settings : TimerSettings) (mode : TimerMode) :
    Int :=
  (if mode = .WORK then settings.workDuration else settings.restDuration) * 60

/-- `createInitialModel(settings)`: full work duration, mode WORK, stopped. -/
def createInitialModel (settings : TimerSettings) : TimerModel :=
  { remainingSeconds := calculateDurationSeconds settings .WORK
    currentMode := .WORK
    state := .STOPPED }

/-- Pure `start`: no-op with `hasChanged = false` when already RUNNING,
otherwise flips the run state to RUNNING with `hasChanged = true`. -/
def TimerModel.start (timerModel : TimerModel) : TimerModel × Bool :=
  if timerModel.state = .RUNNING then
    (timerModel, false)
  else
    ({ timerModel with state := .RUNNING }, true)

/-- Pure `stop`: symmetric to `start`; no-op when already STOPPED. -/
def TimerModel.stop (timerModel : TimerModel) : TimerModel × Bool :=
  if timerModel.state = .STOPPED then
    (timerModel, false)
  else
    ({ timerModel with state := .STOPPED }, true)

/-- Pure `reset(timerModel, settings)`: force STOPPED and restore the
current mode's full duration. -/
def TimerModel.reset (timerModel : TimerModel) (settings : TimerSettings) :
    TimerModel :=
  { timerModel with
    state := .STOPPED
    remainingSeconds := calculateDurationSeconds settings timerModel.currentMode }

/-- Pure `tick`: decrement `remainingSeconds`; when already zero do nothing
(the mode transition is the caller's responsibility). -/
def TimerModel.tick (timerModel : TimerModel) : TimerModel :=
  if timerModel.remainingSeconds = 0 then
    timerModel
  else
    { timerModel with remainingSeconds := timerModel.remainingSeconds - 1 }

/-- Pure `transitionToNextMode(timerModel, settings)`: flip the mode, force
STOPPED, and set the new mode's full duration. -/
def TimerModel.transitionToNextMode (timerModel : TimerModel)
    (settings : TimerSettings) : TimerModel :=
  { timerModel with
    currentMode := timerModel.currentMode.next
    state := .STOPPED
    remainingSeconds := calculateDurationSeconds settings timerModel.currentMode.next }

/-- The stateful controller (`_TimerViewModel`): the current pure model, the
current settings, the live scheduler handle (if any), and the scheduler's
supply of fresh handles. -/
structure TimerViewModel where
  model : TimerModel
  settings : TimerSettings
  timerId : Option Nat
  nextHandle : Nat
deriving DecidableEq, Repr

namespace TimerViewModel

/-- Controller construction (the view model's initialisation): settings come
from storage, the model is `createInitialModel`, no live handle. -/
def init (settings : TimerSettings) : TimerViewModel :=
  { model := createInitialModel settings
    settings := settings
    timerId := none
    nextHandle := 0 }

/-- `start()`: call the pure `start`; when it reports a change, install the
new model and register one recurring scheduler callback (recording its fresh
handle). The returned `Bool` is the pure machine's `hasChanged` flag. -/
def start (vm : TimerViewModel) : TimerViewModel × Bool :=
  let r := TimerModel.start vm.model
  if r.2 then
    ({ vm with
        model := r.1
        timerId := some vm.nextHandle
        nextHandle := vm.nextHandle + 1 }, true)
  else
    (vm, false)

/-- `stop()`: call the pure `stop`; when it reports a change, install the new
model and cancel (clear) the live handle. -/
def stop (vm : TimerViewModel) : TimerViewModel × Bool :=
  let r := TimerModel.stop vm.model
  if r.2 then
    ({ vm with model := r.1, timerId := none }, true)
  else
    (vm, false)

/-- `_transitionToNextMode()`: clear the handle (the timer source has
stopped or is being cancelled by the caller) and apply the pure transition
under the controller's current settings. -/
def transitionToNextMode (vm : TimerViewModel) : TimerViewModel :=
  { vm with
    timerId := none
    model := TimerModel.transitionToNextMode vm.model vm.settings }

/-- `_tick()`, the scheduler callback body: when `remainingSeconds > 0`,
apply the pure `tick`; if it reached zero, transition to the next mode in the
same step and return `false` (stop recurring), otherwise return `true`.
When already at zero, return `false` leaving everything unchanged. -/
def tick (vm : TimerViewModel) : TimerViewModel × Bool :=
  if 0 < vm.model.remainingSeconds then
    let m := TimerModel.tick vm.model
    let vm1 := { vm with model := m }
    if m.remainingSeconds = 0 then
      (vm1.transitionToNextMode, false)
    else
      (vm1, true)
  else
    (vm, false)

/-- `skip()`: cancel any live handle, then transition to the next mode. -/
def skip (vm : TimerViewModel) : TimerViewModel :=
  TimerViewModel.transitionToNextMode { vm with timerId := none }

/-- `reset()`: cancel any live handle, then apply the pure `reset` under the
controller's current settings. -/
def reset (vm : TimerViewModel) : TimerViewModel :=
  { vm with
    timerId := none
    model := TimerModel.reset vm.model vm.settings }

/-- `updateSettings(updates)`: validate via the settings model; on failure do
nothing. On success replace the controller's settings (persisting to storage
is a collaborator call with no effect on this state) and, when STOPPED, apply
the new duration of the current mode to `remainingSeconds`. -/
def updateSettings (vm : TimerViewModel) (updates : SettingsUpdates) :
    TimerViewModel :=
  match TimerSettings.updateSettings vm.settings updates with
  | none => vm
  | some newSettings =>
    let vm1 := { vm with settings := newSettings }
    if vm1.model.state = .STOPPED then
      { vm1 with
        model := { vm1.model with
          remainingSeconds :=
            calculateDurationSeconds newSettings vm1.model.currentMode } }
    else
      vm1

/-- Iterated scheduler callbacks: deliver `n` ticks in sequence. -/
def tickN (vm : TimerViewModel) : Nat → TimerViewModel
  | 0 => vm
  | n + 1 => TimerViewModel.tickN (vm.tick).1 n

end TimerViewModel

/-- One controller command or scheduler callback delivery. This is the
controller's public surface plus the scheduler's tick. -/
inductive Step : TimerViewModel → TimerViewModel → Prop where
  | start (vm : TimerViewModel) : Step vm (vm.start).1
  | stop (vm : TimerViewModel) : Step vm (vm.stop).1
  | skip (vm : TimerViewModel) : Step vm vm.skip
  | reset (vm : TimerViewModel) : Step vm vm.reset
  | updateSettings (vm : TimerViewModel) (u : SettingsUpdates) :
      Step vm (vm.updateSettings u)
  | tick (vm : TimerViewModel) : Step vm (vm.tick).1

/-- Reachability by any sequence of commands and ticks. -/
inductive Reachable (vm0 : TimerViewModel) : TimerViewModel → Prop where
  | refl : Reachable vm0 vm0
  | tail {b c : TimerViewModel} :
      Reachable vm0 b → Step b c → Reachable vm0 c

/-- Like `Step`, but `updateSettings` is only issued while the controller is
STOPPED. -/
inductive StepIdleUpdate : TimerViewModel → TimerViewModel → Prop where
  | start (vm : TimerViewModel) : StepIdleUpdate vm (vm.start).1
  | stop (vm : TimerViewModel) : StepIdleUpdate vm (vm.stop).1
  | skip (vm : TimerViewModel) : StepIdleUpdate vm vm.skip
  | reset (vm : TimerViewModel) : StepIdleUpdate vm vm.reset
  | updateSettings (vm : TimerViewModel) (u : SettingsUpdates)
      (h : vm.model.state = .STOPPED) : StepIdleUpdate vm (vm.updateSettings u)
  | tick (vm : TimerViewModel) : StepIdleUpdate vm (vm.tick).1

/-- Reachability when settings edits only happen while the timer is idle. -/
inductive ReachableIdleUpdate (vm0 : TimerViewModel) : TimerViewModel → Prop where
  | refl : ReachableIdleUpdate vm0 vm0
  | tail {b c : TimerViewModel} :
      ReachableIdleUpdate vm0 b → StepIdleUpdate b c → ReachableIdleUpdate vm0 c

/-- The settings editor (`SettingsViewModel`): draft fields plus the baseline
(`_originalSettings`), which is `none` until the first `load`. -/
structure SettingsViewModel where
  workDuration : Int := 0
  restDuration : Int := 0
  originalSettings : Option TimerSettings := none
deriving DecidableEq, Repr

namespace SettingsViewModel

/-- `hasChanges`: `false` while no baseline is loaded; otherwise structural
inequality of the draft against the baseline. -/
def hasChanges (vm : SettingsViewModel) : Bool :=
  match vm.originalSettings with
  | none => false
  | some o => vm.workDuration != o.workDuration || vm.restDuration != o.restDuration

/-- `load(settings)`: set both draft fields and the baseline. -/
def load (_vm : SettingsViewModel) (settings : TimerSettings) :
    SettingsViewModel :=
  { workDuration := settings.workDuration
    restDuration := settings.restDuration
    originalSettings := some settings }

/-- `save()`: validate the draft through `TimerSettingsSchema.parse`. On
failure the zod error propagates and the editor state is untouched (result
`(vm, none)`); on success the baseline becomes the validated record, which is
also returned. -/
def save (vm : SettingsViewModel) : SettingsViewModel × Option TimerSettings :=
  match TimerSettingsSchema.parse vm.workDuration vm.restDuration with
  | none => (vm, none)
  | some validated => ({ vm with originalSettings := some validated }, some validated)

/-- `cancel()`: revert the draft to the baseline; no-op when no baseline. -/
def cancel (vm : SettingsViewModel) : SettingsViewModel :=
  match vm.originalSettings with
  | none => vm
  | some o => { vm with workDuration := o.workDuration, restDuration := o.restDuration }

end SettingsViewModel

/-! ### Helper lemmas -/

lemma calculateDurationSeconds_pos {s : TimerSettings} (hv : s.Valid)
    (m : TimerMode) : 0 < calculateDurationSeconds s m := by
  obtain ⟨h1, h2⟩ := hv
  cases m <;> simp [calculateDurationSeconds] <;> omega

lemma parse_valid {w r : Int} {s : TimerSettings}
    (h : TimerSettingsSchema.parse w r = some s) : s.Valid := by
  unfold TimerSettingsSchema.parse at h
  split at h
  · rename_i hc
    cases h
    exact hc
  · cases h

lemma updateSettings_valid {s : TimerSettings} {u : SettingsUpdates}
    {s' : TimerSettings} (h : TimerSettings.updateSettings s u = some s') :
    s'.Valid :=
  parse_valid h

namespace TimerViewModel

lemma start_fst_settings (vm : TimerViewModel) :
    (vm.start).1.settings = vm.settings := by
  unfold start TimerModel.start
  by_cases h : vm.model.state = TimerState.RUNNING <;> simp [h]

lemma start_fst_remainingSeconds (vm : TimerViewModel) :
    (vm.start).1.model.remainingSeconds = vm.model.remainingSeconds := by
  unfold start TimerModel.start
  by_cases h : vm.model.state = TimerState.RUNNING <;> simp [h]

lemma start_fst_currentMode (vm : TimerViewModel) :
    (vm.start).1.model.currentMode = vm.model.currentMode := by
  unfold start TimerModel.start
  by_cases h : vm.model.state = TimerState.RUNNING <;> simp [h]

lemma start_fst_state (vm : TimerViewModel) :
    (vm.start).1.model.state = TimerState.RUNNING := by
  unfold start TimerModel.start
  by_cases h : vm.model.state = TimerState.RUNNING <;> simp [h]

lemma stop_fst_settings (vm : TimerViewModel) :
    (vm.stop).1.settings = vm.settings := by
  unfold stop TimerModel.stop
  by_cases h : vm.model.state = TimerState.STOPPED <;> simp [h]

lemma stop_fst_remainingSeconds (vm : TimerViewModel) :
    (vm.stop).1.model.remainingSeconds = vm.model.remainingSeconds := by
  unfold stop TimerModel.stop
  by_cases h : vm.model.state = TimerState.STOPPED <;> simp [h]

lemma stop_fst_currentMode (vm : TimerViewModel) :
    (vm.stop).1.model.currentMode = vm.model.currentMode := by
  unfold stop TimerModel.stop
  by_cases h : vm.model.state = TimerState.STOPPED <;> simp [h]

/-- A tick delivered at zero remaining time is a global no-op that tells the
scheduler to stop. -/
lemma tick_atZero {vm : TimerViewModel}
    (h : ¬0 < vm.model.remainingSeconds) : vm.tick = (vm, false) := by
  unfold tick
  rw [if_neg h]

/-- When more than one second remains, a tick just decrements and asks to
keep recurring. -/
lemma tick_decr {vm : TimerViewModel} (h : 1 < vm.model.remainingSeconds) :
    vm.tick =
      ({ vm with model :=
          { vm.model with
            remainingSeconds := vm.model.remainingSeconds - 1 } }, true) := by
  have hp : 0 < vm.model.remainingSeconds := by omega
  have h2 : ¬vm.model.remainingSeconds = 0 := by omega
  have h3 : ¬(vm.model.remainingSeconds - 1 = 0) := by omega
  unfold tick TimerModel.tick
  rw [if_pos hp]
  simp [h2, h3]

/-- When exactly one second remains, a tick decrements to zero and the mode
transition overwrites the zero state within the same step. -/
lemma tick_toZero {vm : TimerViewModel}
    (h : vm.model.remainingSeconds = 1) :
    vm.tick =
      ({ vm with
          timerId := none
          model :=
            { vm.model with
              currentMode := vm.model.currentMode.next
              state := TimerState.STOPPED
              remainingSeconds :=
                calculateDurationSeconds vm.settings vm.model.currentMode.next } },
        false) := by
  have hp : 0 < vm.model.remainingSeconds := by omega
  have h2 : ¬vm.model.remainingSeconds = 0 := by omega
  unfold tick TimerModel.tick transitionToNextMode TimerModel.transitionToNextMode
  rw [if_pos hp]
  simp [h2, h]

lemma tick_fst_settings (vm : TimerViewModel) :
    (vm.tick).1.settings = vm.settings := by
  by_cases hp : 0 < vm.model.remainingSeconds
  · by_cases hz : vm.model.remainingSeconds = 1
    · rw [tick_toZero hz]
    · have hgt : 1 < vm.model.remainingSeconds := by omega
      rw [tick_decr hgt]
  · rw [tick_atZero hp]

/-- The countdown lemma: from `remainingSeconds = n + 1`, delivering `n + 1`
ticks flips the mode, stops the run state, loads the next mode's duration
from the settings held at the start of the countdown, and leaves no live
handle. -/
lemma tickN_countdown (n : Nat) (vm : TimerViewModel)
    (h : vm.model.remainingSeconds = (n : Int) + 1) :
    (vm.tickN (n + 1)).model.currentMode = vm.model.currentMode.next
    ∧ (vm.tickN (n + 1)).model.state = TimerState.STOPPED
    ∧ (vm.tickN (n + 1)).model.remainingSeconds
        = calculateDurationSeconds vm.settings vm.model.currentMode.next
    ∧ (vm.tickN (n + 1)).timerId = none
    ∧ (vm.tickN (n + 1)).settings = vm.settings := by
  induction n generalizing vm with
  | zero =>
    have h1 : vm.model.remainingSeconds = 1 := by omega
    simp only [tickN]
    rw [tick_toZero h1]
    exact ⟨rfl, rfl, rfl, rfl, rfl⟩
  | succ k ih =>
    have hgt : 1 < vm.model.remainingSeconds := by
      push_cast at h
      omega
    have hrem : (vm.tick).1.model.remainingSeconds = (k : Int) + 1 := by
      rw [tick_decr hgt]
      show vm.model.remainingSeconds - 1 = (k : Int) + 1
      push_cast at h
      omega
    have hmode : (vm.tick).1.model.currentMode = vm.model.currentMode := by
      rw [tick_decr hgt]
    have hset : (vm.tick).1.settings = vm.settings := by
      rw [tick_decr hgt]
    obtain ⟨m1, m2, m3, m4, m5⟩ := ih (vm.tick).1 hrem
    simp only [tickN] at m1 m2 m3 m4 m5 ⊢
    refine ⟨?_, m2, ?_, m4, ?_⟩
    · rw [m1, hmode]
    · rw [m3, hset, hmode]
    · rw [m5, hset]

end TimerViewModel

/-! ### Invariants over reachable states -/

/-- Auxiliary invariant: valid settings and strictly positive remaining
time. Every reachable controller state satisfies it (the transition bundled
into the tick step overwrites the transient zero before the step ends). -/
def GoodPos (vm : TimerViewModel) : Prop :=
  vm.settings.Valid ∧ 0 < vm.model.remainingSeconds

lemma step_goodPos {a b : TimerViewModel} (hg : GoodPos a) (hs : Step a b) :
    GoodPos b := by
  obtain ⟨hv, hp⟩ := hg
  cases hs with
  | start =>
    exact ⟨by rw [TimerViewModel.start_fst_settings]; exact hv,
      by rw [TimerViewModel.start_fst_remainingSeconds]; exact hp⟩
  | stop =>
    exact ⟨by rw [TimerViewModel.stop_fst_settings]; exact hv,
      by rw [TimerViewModel.stop_fst_remainingSeconds]; exact hp⟩
  | skip =>
    exact ⟨hv, calculateDurationSeconds_pos hv _⟩
  | reset =>
    exact ⟨hv, calculateDurationSeconds_pos hv _⟩
  | updateSettings u =>
    cases hu : TimerSettings.updateSettings a.settings u with
    | none =>
      have he : a.updateSettings u = a := by
        unfold TimerViewModel.updateSettings
        rw [hu]
      rw [he]
      exact ⟨hv, hp⟩
    | some s' =>
      have hv' := updateSettings_valid hu
      by_cases hst : a.model.state = TimerState.STOPPED
      · have he : a.updateSettings u =
            { a with
              settings := s'
              model := { a.model with
                remainingSeconds :=
                  calculateDurationSeconds s' a.model.currentMode } } := by
          unfold TimerViewModel.updateSettings
          rw [hu]
          simp [hst]
        rw [he]
        exact ⟨hv', calculateDurationSeconds_pos hv' _⟩
      · have he : a.updateSettings u = { a with settings := s' } := by
          unfold TimerViewModel.updateSettings
          rw [hu]
          simp [hst]
        rw [he]
        exact ⟨hv', hp⟩
  | tick =>
    by_cases hz : a.model.remainingSeconds = 1
    · rw [TimerViewModel.tick_toZero hz]
      exact ⟨hv, calculateDurationSeconds_pos hv _⟩
    · have hgt : 1 < a.model.remainingSeconds := by omega
      rw [TimerViewModel.tick_decr hgt]
      refine ⟨hv, ?_⟩
      show 0 < a.model.remainingSeconds - 1
      omega

lemma reachable_goodPos {vm0 vm : TimerViewModel} (hg : GoodPos vm0)
    (hr : Reachable vm0 vm) : GoodPos vm := by
  induction hr with
  | refl => exact hg
  | tail _ hs ih => exact step_goodPos ih hs

lemma init_goodPos {s : TimerSettings} (hv : s.Valid) :
    GoodPos (TimerViewModel.init s) :=
  ⟨hv, calculateDurationSeconds_pos hv _⟩

/-- Auxiliary invariant for the idle-update discipline: valid settings and
`0 ≤ remainingSeconds ≤ totalSeconds(mode, settings)`. -/
def GoodBound (vm : TimerViewModel) : Prop :=
  vm.settings.Valid ∧ 0 ≤ vm.model.remainingSeconds
    ∧ vm.model.remainingSeconds
        ≤ calculateDurationSeconds vm.settings vm.model.currentMode

lemma step_goodBound {a b : TimerViewModel} (hg : GoodBound a)
    (hs : StepIdleUpdate a b) : GoodBound b := by
  obtain ⟨hv, h0, h1⟩ := hg
  cases hs with
  | start =>
    refine ⟨by rw [TimerViewModel.start_fst_settings]; exact hv, ?_, ?_⟩
    · rw [TimerViewModel.start_fst_remainingSeconds]
      exact h0
    · rw [TimerViewModel.start_fst_remainingSeconds,
        TimerViewModel.start_fst_settings, TimerViewModel.start_fst_currentMode]
      exact h1
  | stop =>
    refine ⟨by rw [TimerViewModel.stop_fst_settings]; exact hv, ?_, ?_⟩
    · rw [TimerViewModel.stop_fst_remainingSeconds]
      exact h0
    · rw [TimerViewModel.stop_fst_remainingSeconds,
        TimerViewModel.stop_fst_settings, TimerViewModel.stop_fst_currentMode]
      exact h1
  | skip =>
    exact ⟨hv, le_of_lt (calculateDurationSeconds_pos hv _), le_refl _⟩
  | reset =>
    exact ⟨hv, le_of_lt (calculateDurationSeconds_pos hv _), le_refl _⟩
  | updateSettings u hidle =>
    cases hu : TimerSettings.updateSettings a.settings u with
    | none =>
      have he : a.updateSettings u = a := by
        unfold TimerViewModel.updateSettings
        rw [hu]
      rw [he]
      exact ⟨hv, h0, h1⟩
    | some s' =>
      have hv' := updateSettings_valid hu
      have he : a.updateSettings u =
          { a with
            settings := s'
            model := { a.model with
              remainingSeconds :=
                calculateDurationSeconds s' a.model.currentMode } } := by
        unfold TimerViewModel.updateSettings
        rw [hu]
        simp [hidle]
      rw [he]
      exact ⟨hv', le_of_lt (calculateDurationSeconds_pos hv' _), le_refl _⟩
  | tick =>
    by_cases hp : 0 < a.model.remainingSeconds
    · by_cases hz : a.model.remainingSeconds = 1
      · rw [TimerViewModel.tick_toZero hz]
        exact ⟨hv, le_of_lt (calculateDurationSeconds_pos hv _), le_refl _⟩
      · have hgt : 1 < a.model.remainingSeconds := by omega
        rw [TimerViewModel.tick_decr hgt]
        refine ⟨hv, ?_, ?_⟩
        · show 0 ≤ a.model.remainingSeconds - 1
          omega
        · show a.model.remainingSeconds - 1
            ≤ calculateDurationSeconds a.settings a.model.currentMode
          omega
    · rw [TimerViewModel.tick_atZero hp]
      exact ⟨hv, h0, h1⟩

lemma reachableIdleUpdate_goodBound {vm0 vm : TimerViewModel}
    (hg : GoodBound vm0) (hr : ReachableIdleUpdate vm0 vm) : GoodBound vm := by
  induction hr with
  | refl => exact hg
  | tail _ hs ih => exact step_goodBound ih hs

lemma init_goodBound {s : TimerSettings} (hv : s.Valid) :
    GoodBound (TimerViewModel.init s) :=
  ⟨hv, le_of_lt (calculateDurationSeconds_pos hv _), le_refl _⟩

/-- Delivering ticks preserves reachability. -/
lemma reachable_tickN {vm0 : TimerViewModel} :
    ∀ (k : Nat) {vm : TimerViewModel}, Reachable vm0 vm →
      Reachable vm0 (vm.tickN k) := by
  intro k
  induction k with
  | zero => intro vm hr; exact hr
  | succ m ih =>
    intro vm hr
    simp only [TimerViewModel.tickN]
    exact ih (Reachable.tail hr (Step.tick vm))
example :
    (TimerViewModel.init { workDuration := 25, restDuration := 5 }).model.remainingSeconds
      = 1500 := by decide

example :
    ((TimerViewModel.init { workDuration := 1, restDuration := 1 }).start).1.model.state
      = TimerState.RUNNING := by decide

set_option maxRecDepth 4000 in
example :
    (TimerViewModel.tickN
      ((TimerViewModel.init { workDuration := 1, restDuration := 1 }).start).1
      60).model
      = { remainingSeconds := 60, currentMode := .REST, state := .STOPPED } := by
  decide

/-! ### Helper equations for `updateSettings` -/

namespace TimerViewModel

lemma updateSettings_eq_invalid {vm : TimerViewModel} {u : SettingsUpdates}
    (hu : TimerSettings.updateSettings vm.settings u = none) :
    vm.updateSettings u = vm := by
  unfold updateSettings
  rw [hu]

lemma updateSettings_eq_stopped {vm : TimerViewModel} {u : SettingsUpdates}
    {s' : TimerSettings} (hu : TimerSettings.updateSettings vm.settings u = some s')
    (hst : vm.model.state = TimerState.STOPPED) :
    vm.updateSettings u =
      { vm with
        settings := s'
        model := { vm.model with
          remainingSeconds :=
            calculateDurationSeconds s' vm.model.currentMode } } := by
  unfold updateSettings
  rw [hu]
  simp [hst]

lemma updateSettings_eq_running {vm : TimerViewModel} {u : SettingsUpdates}
    {s' : TimerSettings} (hu : TimerSettings.updateSettings vm.settings u = some s')
    (hst : ¬vm.model.state = TimerState.STOPPED) :
    vm.updateSettings u = { vm with settings := s' } := by
  unfold updateSettings
  rw [hu]
  simp [hst]

/-- Starting an already-running controller is a global no-op. -/
lemma start_of_running {vm : TimerViewModel}
    (h : vm.model.state = TimerState.RUNNING) : vm.start = (vm, false) := by
  unfold start TimerModel.start
  simp [h]

end TimerViewModel

/-! ### Claims -/

/-- Claim C1 (counterexample): the invariant
`remainingSeconds ≤ totalSeconds(mode, settings)` fails on a reachable
state. From the initial state with settings `{work := 25, rest := 5}`,
`start()` followed by `updateSettings` shrinking the work duration to 1
minute while the timer is RUNNING leaves `remainingSeconds = 1500` while
`totalSeconds(WORK, settings) = 60` under the controller's new current
settings. -/
theorem c1_counterexample :
    Reachable (TimerViewModel.init { workDuration := 25, restDuration := 5 })
      (((TimerViewModel.init { workDuration := 25, restDuration := 5 }).start).1.updateSettings
        { workDuration := some 1, restDuration := none })
    ∧ ¬((((TimerViewModel.init { workDuration := 25, restDuration := 5 }).start).1.updateSettings
          { workDuration := some 1, restDuration := none }).model.remainingSeconds
        ≤ calculateDurationSeconds
            ((((TimerViewModel.init { workDuration := 25, restDuration := 5 }).start).1.updateSettings
              { workDuration := some 1, restDuration := none })).settings
            ((((TimerViewModel.init { workDuration := 25, restDuration := 5 }).start).1.updateSettings
              { workDuration := some 1, restDuration := none })).model.currentMode) := by
  constructor
  · exact Reachable.tail (Reachable.tail Reachable.refl (Step.start _))
      (Step.updateSettings _ _)
  · decide

/-- Claim C1 (amended): for every state reachable from the initial state by
controller commands and scheduler ticks in which every `updateSettings` is
issued while the controller is STOPPED, `remainingSeconds` satisfies
`0 ≤ remainingSeconds ≤ totalSeconds(mode, settings)` computed from the
controller's current settings. -/
theorem c1_remaining_bounded (s0 : TimerSettings) (hv : s0.Valid)
    (vm : TimerViewModel)
    (hr : ReachableIdleUpdate (TimerViewModel.init s0) vm) :
    0 ≤ vm.model.remainingSeconds
    ∧ vm.model.remainingSeconds
        ≤ calculateDurationSeconds vm.settings vm.model.currentMode := by
  have hg := reachableIdleUpdate_goodBound (init_goodBound hv) hr
  exact ⟨hg.2.1, hg.2.2⟩

/-- Witness for C1 (amended) at settings `{25, 5}` and the initial state. -/
theorem c1_remaining_bounded_witness :
    TimerSettings.Valid { workDuration := 25, restDuration := 5 }
    ∧ (0 ≤ (TimerViewModel.init { workDuration := 25, restDuration := 5 }).model.remainingSeconds
       ∧ (TimerViewModel.init { workDuration := 25, restDuration := 5 }).model.remainingSeconds
           ≤ calculateDurationSeconds
               (TimerViewModel.init { workDuration := 25, restDuration := 5 }).settings
               (TimerViewModel.init { workDuration := 25, restDuration := 5 }).model.currentMode) :=
  ⟨by decide,
    c1_remaining_bounded _ (by decide) _ ReachableIdleUpdate.refl⟩

/-- Claim C2: no published final state of a scheduler-callback step of a
reachable controller has `remainingSeconds = 0` with `run = RUNNING`
(indeed every reachable state, including every state published after any
number of further ticks, has positive remaining time, because the bundled
transition overwrites the transient zero in the same step), and repeated
ticking from `remainingSeconds = n > 0` for `n` steps ends with the mode
flipped and the run state STOPPED. -/
theorem c2_tick_transition_bundled (s0 : TimerSettings) (hv : s0.Valid)
    (vm : TimerViewModel) (hr : Reachable (TimerViewModel.init s0) vm)
    (n : Nat) (hn : vm.model.remainingSeconds = (n : Int)) (hpos : 0 < n) :
    (∀ k : Nat, ¬((vm.tickN k).model.remainingSeconds = 0
        ∧ (vm.tickN k).model.state = TimerState.RUNNING))
    ∧ (vm.tickN n).model.currentMode = vm.model.currentMode.next
    ∧ (vm.tickN n).model.state = TimerState.STOPPED := by
  constructor
  · intro k hk
    have hg := reachable_goodPos (init_goodPos hv) (reachable_tickN k hr)
    have := hg.2
    omega
  · obtain ⟨m, rfl⟩ : ∃ m, n = m + 1 := ⟨n - 1, by omega⟩
    have h' : vm.model.remainingSeconds = (m : Int) + 1 := by
      rw [hn]
      push_cast
      ring
    obtain ⟨a1, a2, _, _, _⟩ := TimerViewModel.tickN_countdown m vm h'
    exact ⟨a1, a2⟩

/-- Witness for C2 at settings `{1, 1}`: the initial state has
`remainingSeconds = 60`, and 60 ticks end in REST/STOPPED. -/
theorem c2_tick_transition_bundled_witness :
    TimerSettings.Valid { workDuration := 1, restDuration := 1 }
    ∧ ((∀ k : Nat,
          ¬(((TimerViewModel.init { workDuration := 1, restDuration := 1 }).tickN k).model.remainingSeconds = 0
            ∧ ((TimerViewModel.init { workDuration := 1, restDuration := 1 }).tickN k).model.state
                = TimerState.RUNNING))
       ∧ ((TimerViewModel.init { workDuration := 1, restDuration := 1 }).tickN 60).model.currentMode
           = (TimerViewModel.init { workDuration := 1, restDuration := 1 }).model.currentMode.next
       ∧ ((TimerViewModel.init { workDuration := 1, restDuration := 1 }).tickN 60).model.state
           = TimerState.STOPPED) :=
  ⟨by decide,
    c2_tick_transition_bundled _ (by decide) _ Reachable.refl 60 (by decide) (by decide)⟩

/-- Claim C3: for every valid settings update: while STOPPED,
`updateSettings` immediately sets `remainingSeconds` to the current mode's
duration under the new settings; while RUNNING, `remainingSeconds` is
unchanged immediately after the call, the controller's settings become the
new record, and the in-flight countdown finishes its count (`n + 1` further
ticks) before transitioning into the other mode's duration computed from the
new settings. -/
theorem c3_updateSettings_deferred (vm : TimerViewModel) (u : SettingsUpdates)
    (s' : TimerSettings)
    (hu : TimerSettings.updateSettings vm.settings u = some s') :
    (vm.model.state = TimerState.STOPPED →
      (vm.updateSettings u).model.remainingSeconds
        = calculateDurationSeconds s' vm.model.currentMode)
    ∧ (vm.model.state = TimerState.RUNNING →
      (vm.updateSettings u).model.remainingSeconds = vm.model.remainingSeconds
      ∧ (vm.updateSettings u).settings = s'
      ∧ ∀ n : Nat, vm.model.remainingSeconds = (n : Int) + 1 →
          ((vm.updateSettings u).tickN (n + 1)).model.currentMode
            = vm.model.currentMode.next
          ∧ ((vm.updateSettings u).tickN (n + 1)).model.remainingSeconds
            = calculateDurationSeconds s' vm.model.currentMode.next) := by
  constructor
  · intro hst
    rw [TimerViewModel.updateSettings_eq_stopped hu hst]
  · intro hst
    have hne : ¬vm.model.state = TimerState.STOPPED := by
      rw [hst]
      intro hc
      cases hc
    have he := TimerViewModel.updateSettings_eq_running hu hne
    refine ⟨by rw [he], by rw [he], ?_⟩
    intro n hn
    have hn' : (vm.updateSettings u).model.remainingSeconds = (n : Int) + 1 := by
      rw [he]
      exact hn
    obtain ⟨a1, a2, a3, a4, a5⟩ :=
      TimerViewModel.tickN_countdown n (vm.updateSettings u) hn'
    constructor
    · rw [a1, he]
    · rw [a3, he]

/-- Witness for C3 at the stopped initial state with settings `{25, 5}` and
the update `{work := 10, rest := 3}`. -/
theorem c3_updateSettings_deferred_witness :
    TimerSettings.updateSettings
        (TimerViewModel.init { workDuration := 25, restDuration := 5 }).settings
        { workDuration := some 10, restDuration := some 3 }
      = some { workDuration := 10, restDuration := 3 }
    ∧ (((TimerViewModel.init { workDuration := 25, restDuration := 5 }).model.state
          = TimerState.STOPPED →
        ((TimerViewModel.init { workDuration := 25, restDuration := 5 }).updateSettings
            { workDuration := some 10, restDuration := some 3 }).model.remainingSeconds
          = calculateDurationSeconds { workDuration := 10, restDuration := 3 }
              (TimerViewModel.init { workDuration := 25, restDuration := 5 }).model.currentMode)
       ∧ ((TimerViewModel.init { workDuration := 25, restDuration := 5 }).model.state
            = TimerState.RUNNING →
          ((TimerViewModel.init { workDuration := 25, restDuration := 5 }).updateSettings
              { workDuration := some 10, restDuration := some 3 }).model.remainingSeconds
            = (TimerViewModel.init { workDuration := 25, restDuration := 5 }).model.remainingSeconds
          ∧ ((TimerViewModel.init { workDuration := 25, restDuration := 5 }).updateSettings
              { workDuration := some 10, restDuration := some 3 }).settings
            = { workDuration := 10, restDuration := 3 }
          ∧ ∀ n : Nat,
              (TimerViewModel.init { workDuration := 25, restDuration := 5 }).model.remainingSeconds
                = (n : Int) + 1 →
              (((TimerViewModel.init { workDuration := 25, restDuration := 5 }).updateSettings
                  { workDuration := some 10, restDuration := some 3 }).tickN (n + 1)).model.currentMode
                = (TimerViewModel.init { workDuration := 25, restDuration := 5 }).model.currentMode.next
              ∧ (((TimerViewModel.init { workDuration := 25, restDuration := 5 }).updateSettings
                  { workDuration := some 10, restDuration := some 3 }).tickN (n + 1)).model.remainingSeconds
                = calculateDurationSeconds { workDuration := 10, restDuration := 3 }
                    (TimerViewModel.init { workDuration := 25, restDuration := 5 }).model.currentMode.next)) :=
  ⟨by decide, c3_updateSettings_deferred _ _ _ (by decide)⟩

/-- Claim C4 (Scenario A): from the initial state with settings
`{work := 25, rest := 5}`, `start()` followed by 1500 scheduler ticks ends
in `{mode := REST, run := STOPPED, remainingSeconds := 300}`. -/
theorem c4_scenario_work_to_rest :
    ((((TimerViewModel.init { workDuration := 25, restDuration := 5 }).start).1).tickN 1500).model.currentMode
      = TimerMode.REST
    ∧ ((((TimerViewModel.init { workDuration := 25, restDuration := 5 }).start).1).tickN 1500).model.state
      = TimerState.STOPPED
    ∧ ((((TimerViewModel.init { workDuration := 25, restDuration := 5 }).start).1).tickN 1500).model.remainingSeconds
      = 300 := by
  have h : (((TimerViewModel.init { workDuration := 25, restDuration := 5 }).start).1).model.remainingSeconds
      = ((1499 : Nat) : Int) + 1 := by decide
  obtain ⟨a1, a2, a3, _, _⟩ := TimerViewModel.tickN_countdown 1499 _ h
  have e : (1499 : Nat) + 1 = 1500 := by norm_num
  rw [e] at a1 a2 a3
  refine ⟨?_, a2, ?_⟩
  · rw [a1]
    decide
  · rw [a3]
    decide

/-- Claim C5: a second `start()` issued immediately after a `start()`
returns `changed = false` and leaves the whole controller state (model,
settings, live handle, and the scheduler's handle supply) unchanged — no
second callback registration, no handle replacement. -/
theorem c5_start_idempotent (vm : TimerViewModel) :
    ((vm.start).1).start = ((vm.start).1, false) :=
  TimerViewModel.start_of_running (TimerViewModel.start_fst_state vm)

/-- Claim C6: `skip()`, from any controller state, cancels the live handle,
flips the mode, forces STOPPED, and loads the new mode's full duration under
the current settings. -/
theorem c6_skip_always_transitions (vm : TimerViewModel) :
    vm.skip.timerId = none
    ∧ vm.skip.model.currentMode = vm.model.currentMode.next
    ∧ vm.skip.model.state = TimerState.STOPPED
    ∧ vm.skip.model.remainingSeconds
        = calculateDurationSeconds vm.settings vm.model.currentMode.next :=
  ⟨rfl, rfl, rfl, rfl⟩

/-- Claim C7: `reset()`, from any controller state (in particular after any
`updateSettings`, since the duration is recomputed from the controller's
current settings), forces STOPPED, preserves the mode, restores the current
mode's full duration, and cancels the live handle. -/
theorem c7_reset_restores_duration (vm : TimerViewModel) :
    vm.reset.model.state = TimerState.STOPPED
    ∧ vm.reset.model.currentMode = vm.model.currentMode
    ∧ vm.reset.model.remainingSeconds
        = calculateDurationSeconds vm.settings vm.model.currentMode
    ∧ vm.reset.timerId = none :=
  ⟨rfl, rfl, rfl, rfl⟩

/-- On a successful parse the validated record copies the two arguments. -/
lemma parse_fields {w r : Int} {s : TimerSettings}
    (h : TimerSettingsSchema.parse w r = some s) :
    s.workDuration = w ∧ s.restDuration = r := by
  unfold TimerSettingsSchema.parse at h
  split at h
  · cases h
    exact ⟨rfl, rfl⟩
  · cases h

/-- Claim C8: `save()` validates the draft with exactly the rule of
`TimerSettingsSchema` (both fields positive); on failure the editor state is
untouched (no partial update); on success the returned record copies the
draft fields, the baseline becomes that record, and `hasChanges` is false
afterwards. -/
theorem c8_save_validates (vm : SettingsViewModel) :
    ((vm.save).2 = none
        ↔ TimerSettingsSchema.parse vm.workDuration vm.restDuration = none)
    ∧ (TimerSettingsSchema.parse vm.workDuration vm.restDuration = none →
        (vm.save).1 = vm)
    ∧ (∀ s : TimerSettings,
        TimerSettingsSchema.parse vm.workDuration vm.restDuration = some s →
        vm.save = ({ vm with originalSettings := some s }, some s)
        ∧ s.workDuration = vm.workDuration
        ∧ s.restDuration = vm.restDuration
        ∧ ((vm.save).1).hasChanges = false) := by
  refine ⟨?_, ?_, ?_⟩
  · unfold SettingsViewModel.save
    cases hp : TimerSettingsSchema.parse vm.workDuration vm.restDuration with
    | none => simp
    | some s0 => simp
  · intro hp
    unfold SettingsViewModel.save
    rw [hp]
  · intro s hs
    obtain ⟨h1, h2⟩ := parse_fields hs
    have hsave : vm.save = ({ vm with originalSettings := some s }, some s) := by
      unfold SettingsViewModel.save
      rw [hs]
    refine ⟨hsave, h1, h2, ?_⟩
    rw [hsave]
    simp [SettingsViewModel.hasChanges, h1, h2]

/-- Witness for C8: a draft `{25, 5}` with no baseline saves successfully,
the baseline becomes `{25, 5}`, and `hasChanges` is false afterwards. -/
theorem c8_save_validates_witness :
    (({ workDuration := 25, restDuration := 5, originalSettings := none } :
        SettingsViewModel).save)
      = ({ workDuration := 25, restDuration := 5,
            originalSettings := some { workDuration := 25, restDuration := 5 } },
          some { workDuration := 25, restDuration := 5 })
    ∧ ((({ workDuration := 25, restDuration := 5, originalSettings := none } :
          SettingsViewModel).save).1).hasChanges = false :=
  ⟨((c8_save_validates _).2.2 { workDuration := 25, restDuration := 5 }
      (by decide)).1,
    ((c8_save_validates _).2.2 { workDuration := 25, restDuration := 5 }
      (by decide)).2.2.2⟩

/-- A controller state whose scheduler callback fires at zero remaining
time, for the C9 witness. -/
def zeroTickState : TimerViewModel :=
  { model :=
      { remainingSeconds := 0
        currentMode := TimerMode.WORK
        state := TimerState.RUNNING }
    settings := { workDuration := 25, restDuration := 5 }
    timerId := some 0
    nextHandle := 1 }

/-- Claim C9: a scheduler callback invoked while `remainingSeconds = 0`
returns `false` and leaves the whole controller state — mode, run state,
remaining time, settings, and handle — unchanged; no mode transition
occurs. -/
theorem c9_tick_at_zero_noop (vm : TimerViewModel)
    (h : vm.model.remainingSeconds = 0) : vm.tick = (vm, false) :=
  TimerViewModel.tick_atZero (by omega)

/-- Witness for C9 at a concrete zero-remaining state. -/
theorem c9_tick_at_zero_noop_witness :
    zeroTickState.model.remainingSeconds = 0
    ∧ zeroTickState.tick = (zeroTickState, false) :=
  ⟨rfl, c9_tick_at_zero_noop zeroTickState rfl⟩

/-- Claim C10: before any `load`, i.e. while the baseline is `none`,
`hasChanges` is false for every draft value. -/
theorem c10_hasChanges_false_without_baseline (w r : Int) :
    SettingsViewModel.hasChanges
      { workDuration := w, restDuration := r, originalSettings := none }
      = false :=
  rfl
